import Mathlib

/-
Verification of the SnapPy raytracing widget orchestration layer
(`python/raytracing/raytracing_widget.py`).

The widget code is single-threaded and event-driven, so we embed it as
pure functions: value-level helpers (`_solution_type_text`, volume
formatting, `_maximal_cusp_area`) become Lean functions over `ℚ`/`ℝ`,
and the orchestration methods (`push_fillings_to_manifold`,
`pull_fillings_from_manifold`, `recompute_hyperbolic_structure`,
`round_fillings`) become state transformers that additionally emit the
trace of calls they make, in order, as a `List Call`.  The external
manifold engine (`dehn_fill` / `cusp_info` / `cusp_area_matrix`) is
modelled as a record of its observable state.
-/

namespace SnapPyRaytracing

/-! ### Solution type table (raytracing_widget.py, `_solution_type_text`) -/

/-- The fixed 7-entry solution-type table from the source
(`_solution_type_text` in raytracing_widget.py). -/
def _solution_type_text : List String :=
  [ "degenerate",
    "geometric",
    "non-geometric",
    "flat",
    "degenerate",
    "degenerate",
    "degenerate" ]

/-- The solution-type table exactly as the specification words it:
"status codes 0..6 map exactly to [degenerate, geometric, non-geometric,
flat, degenerate, degenerate, degenerate]".  Kept separate from the
source table so the two can be compared. -/
def spec_solution_type_table : List String :=
  [ "degenerate",
    "geometric",
    "non-geometric",
    "flat",
    "degenerate",
    "degenerate",
    "degenerate" ]

/-- The solution-type text chosen by `update_volume_label`:
`sol_text = _solution_type_text[sol_type]`.  A Python list index outside
the table raises `IndexError`, modelled by `none`. -/
def solution_type_label (sol_type : ℕ) : Option String :=
  _solution_type_text.get? sol_type

/-! ### Volume formatting (`'%.3f' % volume`) -/

/-- Left-pad the fractional part to three digits, as `%.3f` prints it. -/
def pad3 (n : ℕ) : String :=
  if n < 10 then "00" ++ toString n
  else if n < 100 then "0" ++ toString n
  else toString n

/-- Print a count of thousandths as a fixed-point decimal with three
fractional digits. -/
def print_thousandths (n : ℕ) : String :=
  toString (n / 1000) ++ "." ++ pad3 (n % 1000)

/-- Real-number model of Python `'%.3f' % q` for nonnegative `q`: round
`q` to the nearest multiple of 1/1000 and print integer and fractional
parts separated by a dot. -/
def format_3f_nonneg (q : ℚ) : String :=
  print_thousandths (Int.toNat (Int.floor (q * 1000 + 1/2)))

/-- Real-number model of Python `'%.3f' % q`. -/
def format_3f (q : ℚ) : String :=
  if q < 0 then "-" ++ format_3f_nonneg (-q) else format_3f_nonneg q

/-- The `vol_text` computed by `update_volume_label`: `'%.3f' % volume()`
when `volume()` returns, and the sentinel `"-"` when `volume()` raises a
`ValueError` (modelled by `none`). -/
def volume_text (vol : Option ℚ) : String :=
  match vol with
  | none => "-"
  | some v => format_3f v

/-- The text `update_volume_label` writes into the volume label:
`'Vol: %s (%s)' % (vol_text, sol_text)`, undefined (`none`) when the
solution-type code is outside the lookup table. -/
def update_volume_label_text (vol : Option ℚ) (sol_type : ℕ) : Option String :=
  match solution_type_label sol_type with
  | none => none
  | some sol_text => some ("Vol: " ++ volume_text vol ++ " (" ++ sol_text ++ ")")

/-! ### Python `round` (banker's rounding), used by `round_fillings` -/

/-- Python `round` on a real value: nearest integer, ties to even. -/
def python_round (q : ℚ) : ℤ :=
  let f := Int.floor q
  let frac := q - f
  if frac < 1/2 then f
  else if 1/2 < frac then f + 1
  else if f % 2 = 0 then f else f + 1

/-! ### Call-trace model of the orchestrator methods

Each orchestration method of `RaytracingWidget` is embedded as a state
transformer on `WidgetState` that also returns the ordered list of calls
it makes.  Calls into the external engine and the widget's own helper
methods are the events. -/

/-- One call made by an orchestration method, in source order. -/
inductive Call where
  /-- `manifold.dehn_fill(fillings)` -/
  | dehnFill (fillings : List (ℚ × ℚ))
  /-- `manifold.init_hyperbolic_structure(force_recompute = ...)` -/
  | initHyperbolicStructure (force : Bool)
  /-- `main_widget.recompute_raytracing_data_and_redraw()` -/
  | recomputeRaytracingDataAndRedraw
  /-- `main_widget.redraw_if_initialized()` -/
  | redrawIfInitialized
  /-- `self.update_volume_label()` -/
  | updateVolumeLabel
  /-- `filling_controller.update()`: the pull-direction refresh of one
  slider binding -/
  | bindingUpdate
  /-- the per-binding `update_function` callback of a slider binding -/
  | bindingUpdateCallback
  /-- `self.fillings_changed_callback()` -/
  | fillingsChangedCallback
  deriving DecidableEq, Repr

/-- Whether a call goes to the external manifold/render engine. -/
def Call.isEngineCall : Call → Bool
  | .dehnFill _ => true
  | .initHyperbolicStructure _ => true
  | .recomputeRaytracingDataAndRedraw => true
  | .redrawIfInitialized => true
  | _ => false

/-- The state of the widget visible to the orchestration methods: the
external manifold's fillings, the widget's `filling_dict['fillings']`
value list, the number of cusps (there are two slider bindings per
cusp), and whether a `fillings_changed_callback` was registered. -/
structure WidgetState where
  numCusps : ℕ
  manifoldFillings : List (ℚ × ℚ)
  fillingDictFillings : List (ℚ × ℚ)
  hasCallback : Bool

/-- Modelled from the spec: `UniformDictController.update` lives in
`gui_utilities.py`, which is not part of the sources here.  Per the spec,
the pull-from-model `update()` "must refresh the displayed value without
re-invoking the callback", so its trace is a single `bindingUpdate` and
no `bindingUpdateCallback`. -/
def controller_update_calls : List Call := [Call.bindingUpdate]

/-- `update_filling_sliders`: calls `update()` on each of the
`2 * num_cusps` filling controllers. -/
def update_filling_sliders_calls (s : WidgetState) : List Call :=
  List.flatten (List.replicate (2 * s.numCusps) controller_update_calls)

/-- `push_fillings_to_manifold`: `dehn_fill` the current
`filling_dict['fillings']` values, rebuild raytracing data and redraw,
refresh the volume label, then invoke `fillings_changed_callback` if one
was registered. -/
def push_fillings_to_manifold (s : WidgetState) : WidgetState × List Call :=
  ({ s with manifoldFillings := s.fillingDictFillings },
   [ Call.dehnFill s.fillingDictFillings,
     Call.recomputeRaytracingDataAndRedraw,
     Call.updateVolumeLabel ]
     ++ (if s.hasCallback then [Call.fillingsChangedCallback] else []))

/-- `pull_fillings_from_manifold`: overwrite
`filling_dict['fillings']` from the manifold, refresh every filling
slider, rebuild raytracing data and redraw, refresh the volume label. -/
def pull_fillings_from_manifold (s : WidgetState) : WidgetState × List Call :=
  let s1 : WidgetState := { s with fillingDictFillings := s.manifoldFillings }
  (s1,
   update_filling_sliders_calls s1
     ++ [ Call.recomputeRaytracingDataAndRedraw, Call.updateVolumeLabel ])

/-- `recompute_hyperbolic_structure`:
`init_hyperbolic_structure(force_recompute=True)`, rebuild raytracing
data and redraw, refresh the volume label, then invoke
`fillings_changed_callback` if one was registered. -/
def recompute_hyperbolic_structure (s : WidgetState) : WidgetState × List Call :=
  (s,
   [ Call.initHyperbolicStructure true,
     Call.recomputeRaytracingDataAndRedraw,
     Call.updateVolumeLabel ]
     ++ (if s.hasCallback then [Call.fillingsChangedCallback] else []))

/-- The state after the rounding loop of `round_fillings`: every
component of every pair in `filling_dict['fillings']` is replaced by
`float(round(...))`. -/
def rounded_state (s : WidgetState) : WidgetState :=
  { s with
    fillingDictFillings :=
      s.fillingDictFillings.map
        (fun p => ((python_round p.1 : ℚ), (python_round p.2 : ℚ))) }

/-- `round_fillings`: round every filling component to the nearest
integer, refresh every filling slider, then run
`push_fillings_to_manifold`. -/
def round_fillings (s : WidgetState) : WidgetState × List Call :=
  let s1 := rounded_state s
  let pushed := push_fillings_to_manifold s1
  (pushed.1, update_filling_sliders_calls s1 ++ pushed.2)

/-! ### Manifold model

The external manifold object, as observed by this widget: its fillings,
the number of cusps, a counter of forced hyperbolic-structure
recomputations, and the (abstract) cusp-area-matrix diagonal returned by
`cusp_area_matrix(method='trigDependent')` as a function of the current
fillings (`none` models a raised exception). -/

/-- Observable state of the external manifold object. -/
structure Manifold where
  numCusps : ℕ
  fillings : List (ℚ × ℚ)
  forcedRecomputes : ℕ
  hasCuspAreaMatrix : Bool
  cuspAreaDiag : List (ℚ × ℚ) → Option (List ℚ)

/-- External `dehn_fill`, modelled (per the round-trip claim's stated
assumption) as faithfully storing the given coefficients. -/
def dehn_fill (m : Manifold) (fs : List (ℚ × ℚ)) : Manifold :=
  { m with fillings := fs }

/-- External `init_hyperbolic_structure(force_recompute)`: recorded as a
bump of the recompute counter; fillings are untouched. -/
def init_hyperbolic_structure (m : Manifold) (force : Bool) : Manifold :=
  if force then { m with forcedRecomputes := m.forcedRecomputes + 1 } else m

/-- One entry of external `cusp_info()`; only the `'filling'` field is
read by the widget. -/
structure CuspInfo where
  filling : ℚ × ℚ

/-- External `cusp_info`, modelled (per the round-trip claim's stated
assumption) as faithfully returning the stored fillings. -/
def cusp_info (m : Manifold) : List CuspInfo :=
  m.fillings.map (fun p => ⟨p⟩)

/-- The `['vec2[]', [[m0, l0], [m1, l1], ...]]` value built by
`_fillings_from_manifold`. -/
structure Vec2Array where
  tag : String
  values : List (ℚ × ℚ)

/-- `_fillings_from_manifold`: read each cusp's `'filling'` pair from
`cusp_info()` into a `'vec2[]'`-tagged value list. -/
def _fillings_from_manifold (m : Manifold) : Vec2Array :=
  ⟨"vec2[]", (cusp_info m).map (fun d => (d.filling.1, d.filling.2))⟩

/-! ### Maximal cusp area (`_maximal_cusp_area` and its call site) -/

/-- `_maximal_cusp_area(mfd)`: if the object has no `cusp_area_matrix`
attribute, return 5.0.  Otherwise work on a copy: unfill all cusps,
force-recompute the hyperbolic structure, and return the square root of
the maximum diagonal entry of the `trigDependent` cusp area matrix; any
exception in that block (a raising `cusp_area_matrix`, the empty `max`
of a 0-cusp manifold, a negative `sqrt` argument) yields 5.0.  The
second component of the result is the caller's manifold, which the
function never touches. -/
noncomputable def _maximal_cusp_area (mfd : Manifold) : ℝ × Manifold :=
  if mfd.hasCuspAreaMatrix = false then (5, mfd)
  else
    let c0 := mfd
    let c1 := dehn_fill c0 (List.replicate c0.numCusps ((0 : ℚ), (0 : ℚ)))
    let c2 := init_hyperbolic_structure c1 true
    match c2.cuspAreaDiag c2.fillings with
    | none => (5, mfd)
    | some [] => (5, mfd)
    | some (d :: ds) =>
        let maxd := List.foldl max d ds
        if maxd < 0 then (5, mfd) else (Real.sqrt (maxd : ℝ), mfd)

/-- The slider bound computed at the call site in
`create_cusp_areas_frame`:
`cusp_area_maximum = 1.05 * _maximal_cusp_area(manifold)`. -/
noncomputable def cusp_area_maximum (m : Manifold) : ℝ :=
  1.05 * (_maximal_cusp_area m).1

/-! ### Slider clamping (`create_fillings_frame` binding range) -/

/-- Modelled from the spec: the clamping of a user edit lives in
`UniformDictController` (`gui_utilities.py`), which is not part of the
sources here.  Per the spec, "On user edit, the new value is clamped to
`[from_, to]`". -/
def clamp_value (lo hi x : ℚ) : ℚ :=
  max lo (min hi x)

/-- The range `create_fillings_frame` configures on every filling slider
binding: `from_ = -15`, `to = 15`. -/
def filling_slider_range : ℚ × ℚ := (-15, 15)

/-- The value stored by a filling binding after a user edit request. -/
def filling_slider_store (x : ℚ) : ℚ :=
  clamp_value filling_slider_range.1 filling_slider_range.2 x

/-! ### O(1,3) hyperbolic translation (spec-modelled) -/

/-- The Lorentz boost of hyperbolic distance `d` along a unit spatial
direction `u` in the hyperboloid model: time row/column built from
`cosh`/`sinh`, spatial block `I + (cosh d - 1)·u·uᵀ`. -/
noncomputable def o13_unit_translation (u : Fin 3 → ℝ) (d : ℝ) :
    Matrix (Fin 4) (Fin 4) ℝ :=
  !![Real.cosh d, Real.sinh d * u 0, Real.sinh d * u 1, Real.sinh d * u 2;
     Real.sinh d * u 0, 1 + (Real.cosh d - 1) * (u 0 * u 0),
       (Real.cosh d - 1) * (u 0 * u 1), (Real.cosh d - 1) * (u 0 * u 2);
     Real.sinh d * u 1, (Real.cosh d - 1) * (u 1 * u 0),
       1 + (Real.cosh d - 1) * (u 1 * u 1), (Real.cosh d - 1) * (u 1 * u 2);
     Real.sinh d * u 2, (Real.cosh d - 1) * (u 2 * u 0),
       (Real.cosh d - 1) * (u 2 * u 1), 1 + (Real.cosh d - 1) * (u 2 * u 2)]

/-- Modelled from the spec:
`unit_3_vector_and_distance_to_O13_hyperbolic_translation` lives in
`hyperboloid_utilities.py`, which is not part of the sources here.  Per
the spec, given a 3-vector direction (which "need not be pre-normalized")
and a scalar distance, it produces the 4×4 Lorentz transformation
translating by that distance along that direction, "decomposed as unit
direction + distance": the direction is normalized and the boost taken
along the resulting unit vector. -/
noncomputable def unit_3_vector_and_distance_to_O13_hyperbolic_translation
    (v : Fin 3 → ℝ) (d : ℝ) : Matrix (Fin 4) (Fin 4) ℝ :=
  o13_unit_translation
    (fun i => v i / Real.sqrt (v 0 ^ 2 + v 1 ^ 2 + v 2 ^ 2)) d

/-! ## Theorems for the claims -/

/-- Claim C1: for every status code `c` with `0 <= c <= 6`, the
solution-type label text used by `update_volume_label` is exactly the
`c`-th entry of the fixed 7-entry table `[degenerate, geometric,
non-geometric, flat, degenerate, degenerate, degenerate]` (and the
lookup is defined there); codes outside `0..6` are a caller contract
violation and the lookup need not be defined for them. -/
theorem solution_type_lookup_agrees_with_spec (c : ℕ) (h : c ≤ 6) :
    solution_type_label c = spec_solution_type_table.get? c ∧
    (solution_type_label c).isSome = true := by
  interval_cases c <;> exact ⟨rfl, rfl⟩

theorem solution_type_lookup_agrees_with_spec_witness :
    solution_type_label 2 = spec_solution_type_table.get? 2 ∧
    (solution_type_label 2).isSome = true :=
  solution_type_lookup_agrees_with_spec 2 (by decide)

/-- Claim C2: in `update_volume_label`, if `volume()` raises a
ValueError the displayed volume string is exactly `"-"` and the failure
does not propagate (a full label is still produced); if `volume()`
returns `2.0299` the displayed volume string is exactly `"2.030"`. -/
theorem volume_label_sentinel_and_formatting :
    volume_text none = "-" ∧
    volume_text (some (20299/10000)) = "2.030" ∧
    update_volume_label_text none 1 = some "Vol: - (geometric)" := by
  refine ⟨rfl, ?_, rfl⟩
  have h0 : ¬ ((20299:ℚ)/10000 < 0) := by norm_num
  have h2 : Int.floor ((20299:ℚ)/10000 * 1000 + 1/2) = 2030 := by norm_num
  have h1 : Int.toNat (Int.floor ((20299:ℚ)/10000 * 1000 + 1/2)) = 2030 := by
    rw [h2]; rfl
  show format_3f (20299/10000) = "2.030"
  unfold format_3f
  rw [if_neg h0]
  unfold format_3f_nonneg
  rw [h1]
  rfl

/-- Claim C4: `push_fillings_to_manifold` performs, in this order:
`dehn_fill` with the new coefficients, rebuild raytracing data and
redraw, refresh the volume label, and finally — only if a callback was
registered — the `fillings_changed_callback`, exactly once. -/
theorem push_fillings_call_order (s : WidgetState) :
    (push_fillings_to_manifold s).2
      = [Call.dehnFill s.fillingDictFillings,
         Call.recomputeRaytracingDataAndRedraw,
         Call.updateVolumeLabel]
          ++ (if s.hasCallback then [Call.fillingsChangedCallback] else [])
    ∧ (push_fillings_to_manifold s).1.manifoldFillings = s.fillingDictFillings
    ∧ ((push_fillings_to_manifold s).2).count Call.fillingsChangedCallback
        = (if s.hasCallback then 1 else 0) := by
  refine ⟨rfl, rfl, ?_⟩
  cases h : s.hasCallback <;>
    simp [push_fillings_to_manifold, h, List.count_cons, List.count_append]

/-- Claim C5: pushing any list of per-cusp filling pairs to the
manifold and pulling them back via `_fillings_from_manifold` yields the
same pairs unchanged (the external `dehn_fill`/`cusp_info` pair being
modelled as storing fillings faithfully, as the claim assumes), both at
the manifold level and through the
`push_fillings_to_manifold`/`pull_fillings_from_manifold` pair. -/
theorem fillings_roundtrip (m : Manifold) (fs : List (ℚ × ℚ)) (s : WidgetState) :
    (_fillings_from_manifold (dehn_fill m fs)).values = fs ∧
    (_fillings_from_manifold (dehn_fill m fs)).tag = "vec2[]" ∧
    ((pull_fillings_from_manifold (push_fillings_to_manifold s).1).1).fillingDictFillings
      = s.fillingDictFillings := by
  refine ⟨?_, rfl, rfl⟩
  show (fs.map (fun p => (⟨p⟩ : CuspInfo))).map (fun d => (d.filling.1, d.filling.2)) = fs
  induction fs with
  | nil => rfl
  | cons a t ih => simpa using ih

/-- Claim C7: the pull-from-model direction
(`pull_fillings_from_manifold`) never invokes the per-binding update
callback nor the fillings-changed notification, so a pull cannot
trigger a write-update-write loop. -/
theorem pull_fillings_never_invokes_callbacks (s : WidgetState) :
    Call.bindingUpdateCallback ∉ (pull_fillings_from_manifold s).2 ∧
    Call.fillingsChangedCallback ∉ (pull_fillings_from_manifold s).2 := by
  constructor <;>
  · intro hmem
    simp [pull_fillings_from_manifold, update_filling_sliders_calls,
          controller_update_calls, List.mem_append, List.mem_flatten,
          List.mem_replicate] at hmem

/-- Claim C8: a filling binding is configured with range `[-15, 15]`
and an out-of-range edit is clamped rather than raising: an edit
request of `20` stores `15`, an edit request of `-20` stores `-15`, and
every stored value lies in the configured range. -/
theorem filling_slider_clamping :
    filling_slider_store 20 = 15 ∧
    filling_slider_store (-20) = -15 ∧
    ∀ x : ℚ, filling_slider_range.1 ≤ filling_slider_store x ∧
      filling_slider_store x ≤ filling_slider_range.2 := by
  refine ⟨?_, ?_, fun x => ⟨le_max_left _ _, ?_⟩⟩
  · show max (-15 : ℚ) (min 15 20) = 15
    norm_num
  · show max (-15 : ℚ) (min 15 (-20)) = -15
    norm_num
  · exact max_le (by norm_num [filling_slider_range]) (min_le_left _ _)


/-- A concrete widget state: one cusp, a registered callback, and
non-integer pending fillings. -/
def example_state : WidgetState :=
  ⟨1, [(0, 0)], [(7/5, 13/5)], true⟩

/-- Claim C3, counterexample: at a concrete widget state,
`round_fillings` never calls `init_hyperbolic_structure` (it does not
force the engine to recompute the hyperbolic structure), and its call
sequence after the first step differs from that of
`recompute_hyperbolic_structure` — both for the full traces and for the
engine-call subsequences.  This refutes the claim that the two paths
perform the same sequence of engine calls after their respective first
step. -/
theorem round_fillings_counterexample :
    Call.initHyperbolicStructure true ∉ (round_fillings example_state).2 ∧
    ((round_fillings example_state).2).tail
      ≠ ((recompute_hyperbolic_structure example_state).2).tail ∧
    (round_fillings example_state).2.filter (fun c => c.isEngineCall)
      ≠ ((recompute_hyperbolic_structure example_state).2.filter
          (fun c => c.isEngineCall)).tail := by
  refine ⟨?_, ?_, ?_⟩ <;>
    simp [round_fillings, rounded_state, push_fillings_to_manifold,
          recompute_hyperbolic_structure, update_filling_sliders_calls,
          controller_update_calls, example_state, Call.isEngineCall,
          List.filter]

/-- Claim C3, amended: `round_fillings` replaces every filling
component with `float(round(...))` (nearest integer, ties to even),
refreshes the filling sliders, and then proceeds through the
filling-edit path `push_fillings_to_manifold`; it does not itself force
a hyperbolic-structure recompute.  It is `push_fillings_to_manifold`
and `recompute_hyperbolic_structure` that perform the same sequence of
calls after their respective first engine call (`dehn_fill`
vs. forced `init_hyperbolic_structure`): rebuild raytracing data and
redraw, refresh the volume label, invoke the notification callback. -/
theorem round_fillings_amended (s : WidgetState) :
    round_fillings s
      = ((push_fillings_to_manifold (rounded_state s)).1,
         update_filling_sliders_calls (rounded_state s)
           ++ (push_fillings_to_manifold (rounded_state s)).2)
    ∧ (rounded_state s).fillingDictFillings
        = s.fillingDictFillings.map
            (fun p => ((python_round p.1 : ℚ), (python_round p.2 : ℚ)))
    ∧ ((push_fillings_to_manifold s).2).head?
        = some (Call.dehnFill s.fillingDictFillings)
    ∧ ((recompute_hyperbolic_structure s).2).head?
        = some (Call.initHyperbolicStructure true)
    ∧ ((push_fillings_to_manifold s).2).tail
        = ((recompute_hyperbolic_structure s).2).tail :=
  ⟨rfl, rfl, rfl, rfl, rfl⟩

/-- A manifold whose cusp-area-matrix computation raises. -/
def failing_manifold : Manifold :=
  ⟨1, [(3, 4)], 0, true, fun _ => none⟩

/-- A manifold whose cusp-area-matrix computation returns diagonal [4]. -/
def succeeding_manifold : Manifold :=
  ⟨1, [(3, 4)], 0, true, fun _ => some [4]⟩

/-- Claim C6, counterexample: on a manifold whose cusp-area-matrix
computation raises, the maximal cusp-area slider bound is
`1.05 * 5.0 = 5.25`, not `5.0`: the `1.05` factor at the call site in
`create_cusp_areas_frame` is applied outside the fallback of
`_maximal_cusp_area`. -/
theorem cusp_area_fallback_counterexample :
    cusp_area_maximum failing_manifold ≠ 5 := by
  have h : cusp_area_maximum failing_manifold = 21/4 := by
    unfold cusp_area_maximum _maximal_cusp_area
    simp [failing_manifold, dehn_fill, init_hyperbolic_structure]
    norm_num
  rw [h]; norm_num

/-- Claim C6, amended: the maximal cusp-area slider bound is
`1.05 * _maximal_cusp_area(manifold)`, where `_maximal_cusp_area`
returns the square root of the maximal diagonal entry of
`cusp_area_matrix(method='trigDependent')` computed on a copy with all
cusps unfilled, and returns `5.0` whenever that computation fails — so
on failure the slider bound is `1.05 * 5.0 = 5.25`. -/
theorem cusp_area_maximum_amended :
    (∀ m : Manifold, m.hasCuspAreaMatrix = true →
        m.cuspAreaDiag (List.replicate m.numCusps (0, 0)) = none →
        cusp_area_maximum m = 21/4) ∧
    (∀ (m : Manifold) (d : ℚ) (ds : List ℚ),
        m.hasCuspAreaMatrix = true →
        m.cuspAreaDiag (List.replicate m.numCusps (0, 0)) = some (d :: ds) →
        0 ≤ List.foldl max d ds →
        cusp_area_maximum m
          = 1.05 * Real.sqrt ((List.foldl max d ds : ℚ) : ℝ)) := by
  constructor
  · intro m hm hd
    simp only [Prod.mk_zero_zero] at hd
    unfold cusp_area_maximum _maximal_cusp_area
    simp [hm, dehn_fill, init_hyperbolic_structure, hd]
    norm_num
  · intro m d ds hm hd hmax
    simp only [Prod.mk_zero_zero] at hd
    unfold cusp_area_maximum _maximal_cusp_area
    simp [hm, dehn_fill, init_hyperbolic_structure, hd, not_lt.mpr hmax]

theorem cusp_area_maximum_amended_witness :
    cusp_area_maximum failing_manifold = 21/4 ∧
    cusp_area_maximum succeeding_manifold = 1.05 * Real.sqrt 4 := by
  constructor
  · exact cusp_area_maximum_amended.1 failing_manifold rfl rfl
  · have h := cusp_area_maximum_amended.2 succeeding_manifold 4 [] rfl rfl
      (by norm_num [List.foldl])
    simpa using h

/-- A manifold object lacking the `cusp_area_matrix` attribute. -/
def no_attr_manifold : Manifold :=
  ⟨2, [(1, 2), (3, 4)], 0, false, fun _ => none⟩

/-- Claim C10: `_maximal_cusp_area` leaves the input manifold
unchanged — the unfilling and forced recompute act on a copy — and when
the manifold object lacks a `cusp_area_matrix` attribute it returns
`5.0` without touching the manifold at all. -/
theorem maximal_cusp_area_frame (m : Manifold) :
    (_maximal_cusp_area m).2 = m ∧
    (m.hasCuspAreaMatrix = false → _maximal_cusp_area m = (5, m)) := by
  constructor
  · rcases hD : m.cuspAreaDiag (List.replicate m.numCusps 0) with _ | ⟨_ | ⟨d, ds⟩⟩ <;>
      by_cases hM : m.hasCuspAreaMatrix = false <;>
        simp [_maximal_cusp_area, dehn_fill, init_hyperbolic_structure,
              hM, hD, apply_ite]
  · intro hm
    unfold _maximal_cusp_area
    rw [if_pos hm]

theorem maximal_cusp_area_frame_witness :
    (_maximal_cusp_area no_attr_manifold).2 = no_attr_manifold ∧
    _maximal_cusp_area no_attr_manifold = (5, no_attr_manifold) :=
  ⟨(maximal_cusp_area_frame no_attr_manifold).1,
   (maximal_cusp_area_frame no_attr_manifold).2 rfl⟩


set_option maxHeartbeats 2000000 in
/-- Composing the boost along a unit direction `u` by distance `d` with
the boost by `-d` gives the identity: the single algebraic fact behind
the translation-inverse property. -/
theorem o13_unit_inverse (u : Fin 3 → ℝ) (d : ℝ)
    (h : u 0 ^ 2 + u 1 ^ 2 + u 2 ^ 2 = 1) :
    o13_unit_translation u d * o13_unit_translation u (-d) = 1 := by
  have hc : Real.cosh d ^ 2 - Real.sinh d ^ 2 = 1 := Real.cosh_sq_sub_sinh_sq d
  ext i j
  rw [Matrix.mul_apply]
  fin_cases i <;> fin_cases j <;>
    simp [o13_unit_translation, Fin.sum_univ_four, Matrix.one_apply,
          Real.cosh_neg, Real.sinh_neg] <;>
    first
    | linear_combination hc - Real.sinh d ^ 2 * h
    | linear_combination Real.sinh d ^ 2 * h - hc
    | linear_combination (Real.sinh d * (Real.cosh d - 1) * u 0) * h
    | linear_combination (Real.sinh d * (Real.cosh d - 1) * u 1) * h
    | linear_combination (Real.sinh d * (Real.cosh d - 1) * u 2) * h
    | linear_combination (-(Real.sinh d * (Real.cosh d - 1) * u 0)) * h
    | linear_combination (-(Real.sinh d * (Real.cosh d - 1) * u 1)) * h
    | linear_combination (-(Real.sinh d * (Real.cosh d - 1) * u 2)) * h
    | linear_combination (u 0 * u 0 * (Real.cosh d - 1) ^ 2) * h + (u 0 * u 0) * hc
    | linear_combination (u 0 * u 1 * (Real.cosh d - 1) ^ 2) * h + (u 0 * u 1) * hc
    | linear_combination (u 0 * u 2 * (Real.cosh d - 1) ^ 2) * h + (u 0 * u 2) * hc
    | linear_combination (u 1 * u 1 * (Real.cosh d - 1) ^ 2) * h + (u 1 * u 1) * hc
    | linear_combination (u 1 * u 2 * (Real.cosh d - 1) ^ 2) * h + (u 1 * u 2) * hc
    | linear_combination (u 2 * u 2 * (Real.cosh d - 1) ^ 2) * h + (u 2 * u 2) * hc


/-- Claim C9: for every non-zero direction vector `v` and every
distance `d`, the O(1,3) hyperbolic translation produced for `(v, d)`
composed with the one produced for `(v, -d)` is exactly the 4×4
identity, hence in particular within tolerance `1e-10` entrywise. -/
theorem o13_translation_inverse_within_tolerance (v : Fin 3 → ℝ) (d : ℝ)
    (hv : v ≠ 0) :
    unit_3_vector_and_distance_to_O13_hyperbolic_translation v d *
        unit_3_vector_and_distance_to_O13_hyperbolic_translation v (-d) = 1 ∧
    ∀ i j : Fin 4,
      |(unit_3_vector_and_distance_to_O13_hyperbolic_translation v d *
          unit_3_vector_and_distance_to_O13_hyperbolic_translation v (-d)) i j
        - (1 : Matrix (Fin 4) (Fin 4) ℝ) i j| ≤ 1e-10 := by
  have hS : 0 < v 0 ^ 2 + v 1 ^ 2 + v 2 ^ 2 := by
    by_contra hcon
    push_neg at hcon
    have e0 : v 0 ^ 2 = 0 :=
      le_antisymm (by nlinarith [sq_nonneg (v 1), sq_nonneg (v 2)]) (sq_nonneg _)
    have e1 : v 1 ^ 2 = 0 :=
      le_antisymm (by nlinarith [sq_nonneg (v 0), sq_nonneg (v 2)]) (sq_nonneg _)
    have e2 : v 2 ^ 2 = 0 :=
      le_antisymm (by nlinarith [sq_nonneg (v 0), sq_nonneg (v 1)]) (sq_nonneg _)
    apply hv
    funext i
    fin_cases i
    · simpa using sq_eq_zero_iff.mp e0
    · simpa using sq_eq_zero_iff.mp e1
    · simpa using sq_eq_zero_iff.mp e2
  have hne : Real.sqrt (v 0 ^ 2 + v 1 ^ 2 + v 2 ^ 2) ≠ 0 :=
    (Real.sqrt_pos.mpr hS).ne'
  have hn2 : Real.sqrt (v 0 ^ 2 + v 1 ^ 2 + v 2 ^ 2) ^ 2
      = v 0 ^ 2 + v 1 ^ 2 + v 2 ^ 2 := Real.sq_sqrt hS.le
  have hu : (v 0 / Real.sqrt (v 0 ^ 2 + v 1 ^ 2 + v 2 ^ 2)) ^ 2
      + (v 1 / Real.sqrt (v 0 ^ 2 + v 1 ^ 2 + v 2 ^ 2)) ^ 2
      + (v 2 / Real.sqrt (v 0 ^ 2 + v 1 ^ 2 + v 2 ^ 2)) ^ 2 = 1 := by
    field_simp
  have hmain : unit_3_vector_and_distance_to_O13_hyperbolic_translation v d *
      unit_3_vector_and_distance_to_O13_hyperbolic_translation v (-d) = 1 := by
    unfold unit_3_vector_and_distance_to_O13_hyperbolic_translation
    exact o13_unit_inverse _ d hu
  refine ⟨hmain, fun i j => ?_⟩
  rw [hmain, sub_self, abs_zero]
  norm_num

theorem o13_translation_inverse_witness :
    unit_3_vector_and_distance_to_O13_hyperbolic_translation ![1, 0, 0] 1 *
      unit_3_vector_and_distance_to_O13_hyperbolic_translation ![1, 0, 0] (-1)
      = 1 :=
  (o13_translation_inverse_within_tolerance ![1, 0, 0] 1 (by
    intro hcontra
    have h0 := congrFun hcontra 0
    simp at h0)).1


end SnapPyRaytracing
